import Mathlib

/-
Shallow embedding of the Expense-Tracker application core (app2.py):
the transaction store, the period filter and the aggregation views,
together with theorems settling the specification claims.

Dates are embedded as year/month/day triples; chronological order and the
Python weekday are obtained through a day-number scalar (the standard
Gregorian day count), which is exactly how datetime.date ordering and
date.weekday() behave on valid dates.  Amounts are embedded as rationals
(the source stores float(amount); the spec treats amounts as decimals).
-/

namespace ExpenseTracker

/-- A calendar date as carried by a YYYY-MM-DD string: the three numeric
fields, before any validity check. -/
structure Date where
  year : Nat
  month : Nat
  day : Nat
deriving DecidableEq, Repr

/-- Number of days of a month in the Gregorian calendar, as enforced by
datetime.strptime when parsing with the %Y-%m-%d format. -/
def daysInMonth (y m : Nat) : Nat :=
  if m = 2 then (if y % 4 = 0 ∧ (y % 100 ≠ 0 ∨ y % 400 = 0) then 29 else 28)
  else if m = 4 ∨ m = 6 ∨ m = 9 ∨ m = 11 then 30 else 31

/-- Whether the date parses: datetime.strptime(date, %Y-%m-%d) and
pd.to_datetime succeed exactly on real calendar dates (year 1..9999). -/
def Date.valid (dt : Date) : Bool :=
  decide (1 ≤ dt.year ∧ dt.year ≤ 9999 ∧ 1 ≤ dt.month ∧ dt.month ≤ 12 ∧
    1 ≤ dt.day ∧ dt.day ≤ daysInMonth dt.year dt.month)

/-- Day-number scalar of a date (Julian day number shifted by a constant),
via the standard Gregorian formula.  On valid dates it is strictly monotone
in chronological order, so datetime.date comparisons in the source are
embedded as comparisons of this scalar. -/
def Date.toScalar (dt : Date) : Nat :=
  let a := (14 - dt.month) / 12
  let y := dt.year + 4800 - a
  let m := dt.month + 12 * a - 3
  365 * y + y / 4 + y / 400 + dt.day + (153 * m + 2) / 5 - y / 100

/-- Day of the week with Monday = 0, as returned by Python date.weekday(). -/
def Date.weekday (dt : Date) : Nat :=
  (dt.toScalar + 1) % 7

/-- The fixed expense category list of the source. -/
def EXPENSE_CATEGORIES : List String :=
  ["Food & Dining", "Transportation", "Shopping", "Entertainment",
   "Bills & Utilities", "Healthcare", "Travel", "Education",
   "Personal Care", "Home & Garden", "Other"]

/-- The fixed income category list of the source. -/
def INCOME_CATEGORIES : List String :=
  ["Salary", "Freelance", "Business", "Investments",
   "Rental Income", "Gifts", "Other"]

/-- A stored transaction record, mirroring the dict built by
add_transaction: id, type, category, amount, description, date and the
insertion timestamp (datetime.now().isoformat(), embedded as a number
since ISO timestamps compare chronologically). -/
structure Transaction where
  id : Nat
  type : String
  category : String
  amount : ℚ
  description : String
  date : Date
  timestamp : Nat
deriving DecidableEq, Repr

/-- Outcome of add_transaction: one of the three validation messages, or
success carrying the created record. -/
inductive AddResult where
  | invalidAmount
  | missingCategory
  | invalidDate
  | success (t : Transaction)
deriving DecidableEq, Repr

/-- Embedding of add_transaction.  The source checks, in order:
amount falsy or non-positive; category falsy (empty); date failing to
parse as YYYY-MM-DD.  On success it appends a record with
id = len(transactions) + 1 and returns it.  The amount argument is Option
because the gr.Number input can be absent (None). -/
def add_transaction (transaction_type : String) (category : String)
    (amount : Option ℚ) (description : String) (date : Date) (now : Nat)
    (transactions : List Transaction) : AddResult × List Transaction :=
  match amount with
  | none => (.invalidAmount, transactions)
  | some a =>
    if a ≤ 0 then (.invalidAmount, transactions)
    else if category = "" then (.missingCategory, transactions)
    else if !date.valid then (.invalidDate, transactions)
    else
      let t : Transaction :=
        { id := transactions.length + 1
          type := transaction_type
          category := category
          amount := a
          description := if description = "" then "No description" else description
          date := date
          timestamp := now }
      (.success t, transactions ++ [t])

/-- Largest id present in the store (0 for the empty store). -/
def maxId (transactions : List Transaction) : Nat :=
  (transactions.map (fun t => t.id)).foldr max 0

/-- Insert a record into a list that is already sorted by descending
timestamp, before the first entry whose timestamp is not larger: a record
coming earlier in the original list stays ahead of later records with the
same timestamp. -/
def insertByTimestampDesc (x : Transaction) : List Transaction → List Transaction
  | [] => [x]
  | y :: ys =>
    if y.timestamp ≤ x.timestamp then x :: y :: ys
    else y :: insertByTimestampDesc x ys

/-- Sort by descending timestamp, keeping records with equal timestamps
in their original relative order (stable descending sort). -/
def sortByTimestampDesc : List Transaction → List Transaction
  | [] => []
  | x :: xs => insertByTimestampDesc x (sortByTimestampDesc xs)

/-- Embedding of get_recent_transactions: the source returns an empty
frame for an empty store, and otherwise
df.sort_values(timestamp, ascending=False).head(10).  The default sort
kind leaves the order of rows with equal timestamps unspecified; the
documented stable kinds produce the descending order with equal-key rows
kept in their original row order, and that stable descending semantics
is what this embedding uses. -/
def get_recent_transactions (transactions : List Transaction) : List Transaction :=
  if transactions.isEmpty then []
  else (sortByTimestampDesc transactions).take 10

/-- Error raised inside filter_transactions_by_period when a supplied
custom bound does not parse (the pd.to_datetime ValueError). -/
inductive FilterError where
  | invalidDate
deriving DecidableEq, Repr

/-- Body of filter_transactions_by_period, before the surrounding
try/except: empty store short-circuits to the empty frame; the named
periods filter by a lower bound on the date (equality for Today); Custom
Range parses both bounds, raising on an unparseable one, and keeps dates
inside the closed interval; a missing bound or an unknown period name
leaves the list unfiltered.  Date comparisons are scalar comparisons. -/
def filterBody (period : String) (start_date end_date : Option Date)
    (today : Date) (transactions : List Transaction) :
    Except FilterError (List Transaction) :=
  if transactions.isEmpty then .ok []
  else if period = "Today" then
    .ok (transactions.filter (fun t => decide (t.date.toScalar = today.toScalar)))
  else if period = "This Week" then
    .ok (transactions.filter (fun t =>
      decide (today.toScalar - today.weekday ≤ t.date.toScalar)))
  else if period = "This Month" then
    .ok (transactions.filter (fun t =>
      decide ((Date.mk today.year today.month 1).toScalar ≤ t.date.toScalar)))
  else if period = "This Year" then
    .ok (transactions.filter (fun t =>
      decide ((Date.mk today.year 1 1).toScalar ≤ t.date.toScalar)))
  else if period = "Custom Range" then
    match start_date, end_date with
    | some s, some e =>
      if !s.valid then .error .invalidDate
      else if !e.valid then .error .invalidDate
      else .ok (transactions.filter (fun t =>
        decide (s.toScalar ≤ t.date.toScalar) && decide (t.date.toScalar ≤ e.toScalar)))
    | _, _ => .ok transactions
  else .ok transactions

/-- Embedding of filter_transactions_by_period with its try/except: any
error raised in the body is caught and an empty frame is returned. -/
def filter_transactions_by_period (period : String)
    (start_date end_date : Option Date) (today : Date)
    (transactions : List Transaction) : List Transaction :=
  match filterBody period start_date end_date today transactions with
  | .ok l => l
  | .error _ => []

/-- Sum of the amounts of the transactions of the given type, as computed
by df[df.type == ty].amount.sum(). -/
def totalOfType (ty : String) (l : List Transaction) : ℚ :=
  ((l.filter (fun t => decide (t.type = ty))).map (fun t => t.amount)).sum

/-- The summary view: the explicit no-data message for an empty filtered
set, otherwise the four numbers interpolated into the markdown card. -/
inductive SummaryView where
  | noData
  | cards (totalIncome totalExpenses netBalance : ℚ) (transactionCount : Nat)
deriving DecidableEq, Repr

/-- Embedding of create_summary_cards. -/
def create_summary_cards (period : String) (start_date end_date : Option Date)
    (today : Date) (transactions : List Transaction) : SummaryView :=
  let df := filter_transactions_by_period period start_date end_date today transactions
  if df.isEmpty then .noData
  else .cards (totalOfType "Income" df) (totalOfType "Expense" df)
    (totalOfType "Income" df - totalOfType "Expense" df) df.length

/-- A chart view over group keys of type κ: the explicit no-data
annotation figure, or the grouped totals handed to the plotting call. -/
inductive ChartView (κ : Type) where
  | noData
  | chart (groups : List (κ × ℚ))
deriving DecidableEq, Repr

/-- Embedding of df.groupby(key).amount.sum(): one entry per distinct key
value, carrying the sum of the amounts of the rows with that key. -/
def groupSums {κ : Type} [DecidableEq κ] (key : Transaction → κ)
    (l : List Transaction) : List (κ × ℚ) :=
  ((l.map key).dedup).map (fun k =>
    (k, ((l.filter (fun t => decide (key t = k))).map (fun t => t.amount)).sum))

/-- Embedding of create_expense_pie_chart: groups the filtered expense
rows by category. -/
def create_expense_pie_chart (period : String) (start_date end_date : Option Date)
    (today : Date) (transactions : List Transaction) : ChartView String :=
  let df := filter_transactions_by_period period start_date end_date today transactions
  let expense_df := df.filter (fun t => decide (t.type = "Expense"))
  if expense_df.isEmpty then .noData
  else .chart (groupSums (fun t => t.category) expense_df)

/-- Embedding of create_income_pie_chart: groups the filtered income rows
by category. -/
def create_income_pie_chart (period : String) (start_date end_date : Option Date)
    (today : Date) (transactions : List Transaction) : ChartView String :=
  let df := filter_transactions_by_period period start_date end_date today transactions
  let income_df := df.filter (fun t => decide (t.type = "Income"))
  if income_df.isEmpty then .noData
  else .chart (groupSums (fun t => t.category) income_df)

/-- Embedding of create_trend_chart: groups the filtered rows by
(date, type). -/
def create_trend_chart (period : String) (start_date end_date : Option Date)
    (today : Date) (transactions : List Transaction) : ChartView (Nat × String) :=
  let df := filter_transactions_by_period period start_date end_date today transactions
  if df.isEmpty then .noData
  else .chart (groupSums (fun t => (t.date.toScalar, t.type)) df)

/-- Embedding of create_bar_chart: groups the filtered rows by
(category, type). -/
def create_bar_chart (period : String) (start_date end_date : Option Date)
    (today : Date) (transactions : List Transaction) : ChartView (String × String) :=
  let df := filter_transactions_by_period period start_date end_date today transactions
  if df.isEmpty then .noData
  else .chart (groupSums (fun t => (t.category, t.type)) df)

/-- Total of the amounts shown by a chart view; the no-data annotation
contributes nothing. -/
def chartTotal {κ : Type} : ChartView κ → ℚ
  | .noData => 0
  | .chart groups => (groups.map (fun g => g.2)).sum

lemma maxId_cons (t : Transaction) (l : List Transaction) :
    maxId (t :: l) = max t.id (maxId l) := rfl

lemma mem_le_maxId {t : Transaction} {l : List Transaction} (h : t ∈ l) :
    t.id ≤ maxId l := by
  induction l with
  | nil => cases h
  | cons a l ih =>
    rw [maxId_cons]
    rcases List.mem_cons.mp h with h | h
    · exact h ▸ le_max_left _ _
    · exact le_trans (ih h) (le_max_right _ _)

lemma maxId_append_single (l : List Transaction) (t : Transaction) :
    maxId (l ++ [t]) = max (maxId l) t.id := by
  induction l with
  | nil => simp [maxId]
  | cons a l ih =>
    rw [List.cons_append, maxId_cons, ih, maxId_cons, max_assoc]

lemma add_transaction_none_eq (ty cat : String) (desc : String) (d : Date)
    (now : Nat) (txs : List Transaction) :
    add_transaction ty cat none desc d now txs = (.invalidAmount, txs) := rfl

lemma add_transaction_nonpos_eq (ty cat : String) (a : ℚ) (desc : String)
    (d : Date) (now : Nat) (txs : List Transaction) (hA : a ≤ 0) :
    add_transaction ty cat (some a) desc d now txs = (.invalidAmount, txs) := by
  simp only [add_transaction]
  rw [if_pos hA]

lemma add_transaction_emptycat_eq (ty cat : String) (a : ℚ) (desc : String)
    (d : Date) (now : Nat) (txs : List Transaction)
    (hA : ¬ a ≤ 0) (hC : cat = "") :
    add_transaction ty cat (some a) desc d now txs = (.missingCategory, txs) := by
  simp only [add_transaction]
  rw [if_neg hA, if_pos hC]

lemma add_transaction_baddate_eq (ty cat : String) (a : ℚ) (desc : String)
    (d : Date) (now : Nat) (txs : List Transaction)
    (hA : ¬ a ≤ 0) (hC : cat ≠ "") (hD : d.valid = false) :
    add_transaction ty cat (some a) desc d now txs = (.invalidDate, txs) := by
  simp only [add_transaction]
  rw [if_neg hA, if_neg hC, hD]
  simp

lemma add_transaction_success_eq (ty cat : String) (a : ℚ) (desc : String)
    (d : Date) (now : Nat) (txs : List Transaction)
    (hA : ¬ a ≤ 0) (hC : cat ≠ "") (hD : d.valid = true) :
    add_transaction ty cat (some a) desc d now txs =
      (.success
        { id := txs.length + 1, type := ty, category := cat, amount := a
          description := if desc = "" then "No description" else desc
          date := d, timestamp := now },
       txs ++ [{ id := txs.length + 1, type := ty, category := cat, amount := a
                 description := if desc = "" then "No description" else desc
                 date := d, timestamp := now }]) := by
  simp only [add_transaction, hD]
  rw [if_neg hA, if_neg hC]
  simp

/-- C4: with a positive amount, a non-empty category and a parsing date,
add_transaction succeeds, appends exactly one record (store size grows by
one), and the new record receives id = previous maximum id + 1; the new id
exceeds every stored id and the max-id-equals-length invariant is
preserved, so ids stay unique and strictly increasing with insertion
order. -/
theorem add_transaction_success_appends_next_id
    (ty cat : String) (a : ℚ) (desc : String) (d : Date) (now : Nat)
    (txs : List Transaction)
    (hA : ¬ a ≤ 0) (hC : cat ≠ "") (hD : d.valid = true)
    (hInv : maxId txs = txs.length) :
    ∃ t : Transaction,
      add_transaction ty cat (some a) desc d now txs = (.success t, txs ++ [t]) ∧
      (txs ++ [t]).length = txs.length + 1 ∧
      t.id = maxId txs + 1 ∧
      (∀ u ∈ txs, u.id < t.id) ∧
      maxId (txs ++ [t]) = (txs ++ [t]).length := by
  refine ⟨_, add_transaction_success_eq ty cat a desc d now txs hA hC hD, ?_, ?_, ?_, ?_⟩
  · simp
  · simp [hInv]
  · intro u hu
    have h := mem_le_maxId hu
    rw [hInv] at h
    show u.id < txs.length + 1
    omega
  · rw [maxId_append_single, hInv]
    simp only [List.length_append, List.length_singleton]
    show max txs.length (txs.length + 1) = txs.length + 1
    omega

/-- C4 witness: a concrete successful insertion into a store holding one
record with id 1. -/
theorem add_transaction_success_appends_next_id_witness :
    ∃ t : Transaction,
      add_transaction "Income" "Salary" (some 1000) "" (Date.mk 2024 3 1) 7
        [Transaction.mk 1 "Expense" "Food & Dining" 50 "lunch" (Date.mk 2024 3 10) 3] =
        (.success t, [Transaction.mk 1 "Expense" "Food & Dining" 50 "lunch" (Date.mk 2024 3 10) 3] ++ [t]) ∧
      ([Transaction.mk 1 "Expense" "Food & Dining" 50 "lunch" (Date.mk 2024 3 10) 3] ++ [t]).length =
        [Transaction.mk 1 "Expense" "Food & Dining" 50 "lunch" (Date.mk 2024 3 10) 3].length + 1 ∧
      t.id = maxId [Transaction.mk 1 "Expense" "Food & Dining" 50 "lunch" (Date.mk 2024 3 10) 3] + 1 ∧
      (∀ u ∈ [Transaction.mk 1 "Expense" "Food & Dining" 50 "lunch" (Date.mk 2024 3 10) 3], u.id < t.id) ∧
      maxId ([Transaction.mk 1 "Expense" "Food & Dining" 50 "lunch" (Date.mk 2024 3 10) 3] ++ [t]) =
        ([Transaction.mk 1 "Expense" "Food & Dining" 50 "lunch" (Date.mk 2024 3 10) 3] ++ [t]).length :=
  add_transaction_success_appends_next_id "Income" "Salary" 1000 "" (Date.mk 2024 3 1) 7
    [Transaction.mk 1 "Expense" "Food & Dining" 50 "lunch" (Date.mk 2024 3 10) 3]
    (by norm_num) (by decide) (by decide) (by decide)

/-- C5: on any invalid input (missing or non-positive amount, empty
category, or non-parsing date) add_transaction returns one of the three
validation messages and leaves the store exactly unchanged. -/
theorem add_transaction_failure_leaves_store_unchanged
    (ty cat : String) (amount : Option ℚ) (desc : String) (d : Date)
    (now : Nat) (txs : List Transaction)
    (hBad : amount = none ∨ (∃ a, amount = some a ∧ a ≤ 0) ∨ cat = "" ∨ d.valid = false) :
    (add_transaction ty cat amount desc d now txs).2 = txs ∧
      ((add_transaction ty cat amount desc d now txs).1 = .invalidAmount ∨
       (add_transaction ty cat amount desc d now txs).1 = .missingCategory ∨
       (add_transaction ty cat amount desc d now txs).1 = .invalidDate) := by
  cases amount with
  | none =>
    rw [add_transaction_none_eq]
    exact ⟨rfl, Or.inl rfl⟩
  | some a =>
    by_cases hA : a ≤ 0
    · rw [add_transaction_nonpos_eq ty cat a desc d now txs hA]
      exact ⟨rfl, Or.inl rfl⟩
    · by_cases hC : cat = ""
      · rw [add_transaction_emptycat_eq ty cat a desc d now txs hA hC]
        exact ⟨rfl, Or.inr (Or.inl rfl)⟩
      · by_cases hD : d.valid = true
        · exfalso
          rcases hBad with h | ⟨a', ha', hle⟩ | h | h
          · exact Option.noConfusion h
          · exact hA (Option.some_injective _ ha' ▸ hle)
          · exact hC h
          · rw [hD] at h; exact Bool.noConfusion h
        · have hD' : d.valid = false := Bool.eq_false_iff.mpr hD
          rw [add_transaction_baddate_eq ty cat a desc d now txs hA hC hD']
          exact ⟨rfl, Or.inr (Or.inr rfl)⟩

/-- C5 witness: a zero amount is rejected and a one-element store is
returned untouched. -/
theorem add_transaction_failure_leaves_store_unchanged_witness :
    (add_transaction "Expense" "Shopping" (some 0) "" (Date.mk 2024 3 10) 4
      [Transaction.mk 1 "Income" "Salary" 100 "" (Date.mk 2024 1 1) 1]).2 =
      [Transaction.mk 1 "Income" "Salary" 100 "" (Date.mk 2024 1 1) 1] ∧
    ((add_transaction "Expense" "Shopping" (some 0) "" (Date.mk 2024 3 10) 4
      [Transaction.mk 1 "Income" "Salary" 100 "" (Date.mk 2024 1 1) 1]).1 = .invalidAmount ∨
     (add_transaction "Expense" "Shopping" (some 0) "" (Date.mk 2024 3 10) 4
      [Transaction.mk 1 "Income" "Salary" 100 "" (Date.mk 2024 1 1) 1]).1 = .missingCategory ∨
     (add_transaction "Expense" "Shopping" (some 0) "" (Date.mk 2024 3 10) 4
      [Transaction.mk 1 "Income" "Salary" 100 "" (Date.mk 2024 1 1) 1]).1 = .invalidDate) :=
  add_transaction_failure_leaves_store_unchanged "Expense" "Shopping"
    (some 0) "" (Date.mk 2024 3 10) 4
    [Transaction.mk 1 "Income" "Salary" 100 "" (Date.mk 2024 1 1) 1]
    (Or.inr (Or.inl ⟨0, rfl, le_refl 0⟩))

/-- C10: the validations of add_transaction run in the fixed order
amount, category, date: an invalid amount always reports the amount
error whatever the other fields; with a valid amount an empty category
always reports the category error whatever the date; the date error is
reported exactly when amount and category pass and the date does not
parse. -/
theorem validation_order_fixed (ty cat : String) (amount : Option ℚ)
    (desc : String) (d : Date) (now : Nat) (txs : List Transaction) :
    ((amount = none ∨ ∃ a, amount = some a ∧ a ≤ 0) →
      (add_transaction ty cat amount desc d now txs).1 = .invalidAmount) ∧
    (∀ a, amount = some a → ¬ a ≤ 0 → cat = "" →
      (add_transaction ty cat amount desc d now txs).1 = .missingCategory) ∧
    (∀ a, amount = some a → ¬ a ≤ 0 → cat ≠ "" → d.valid = false →
      (add_transaction ty cat amount desc d now txs).1 = .invalidDate) := by
  refine ⟨?_, ?_, ?_⟩
  · rintro (rfl | ⟨a, rfl, hle⟩)
    · rw [add_transaction_none_eq]
    · rw [add_transaction_nonpos_eq ty cat a desc d now txs hle]
  · rintro a rfl hA hC
    rw [add_transaction_emptycat_eq ty cat a desc d now txs hA hC]
  · rintro a rfl hA hC hD
    rw [add_transaction_baddate_eq ty cat a desc d now txs hA hC hD]

/-- C10 witness: with both the amount and the category invalid, the
reported failure is the amount error; with only the date invalid, the
reported failure is the date error. -/
theorem validation_order_fixed_witness :
    ((some (-5 : ℚ) = none ∨ ∃ a, some (-5 : ℚ) = some a ∧ a ≤ 0) →
      (add_transaction "Expense" "" (some (-5)) "" ⟨2024, 3, 10⟩ 4 []).1 = .invalidAmount) ∧
    (add_transaction "Expense" "" (some (-5)) "" ⟨2024, 3, 10⟩ 4 []).1 = .invalidAmount ∧
    (add_transaction "Expense" "Travel" (some 5) "" ⟨2024, 2, 30⟩ 4 []).1 = .invalidDate := by
  have h1 := validation_order_fixed "Expense" "" (some (-5)) "" ⟨2024, 3, 10⟩ 4 []
  have h2 := validation_order_fixed "Expense" "Travel" (some 5) "" ⟨2024, 2, 30⟩ 4 []
  refine ⟨h1.1, h1.1 (Or.inr ⟨-5, rfl, by norm_num⟩), ?_⟩
  exact h2.2.2 5 rfl (by norm_num) (by decide) (by decide)

/-- C1 counterexample: the category Gift Card is not in the expense list,
yet add_transaction with type Expense accepts it and stores the record,
so the call is not rejected and the stored category is outside the fixed
list. -/
theorem category_outside_list_accepted_cex :
    ((add_transaction "Expense" "Gift Card" (some 25) "" ⟨2024, 3, 10⟩ 5 []).2.map
      (fun t => t.category) = ["Gift Card"]) ∧
    "Gift Card" ∉ EXPENSE_CATEGORIES ∧
    (add_transaction "Expense" "Gift Card" (some 25) "" ⟨2024, 3, 10⟩ 5 []).1 ≠
      .missingCategory := by
  refine ⟨?_, by decide, ?_⟩ <;> decide

/-- C1 amended: add_transaction checks only that the category is
non-empty, never membership in the fixed list of the type: any non-empty
category string is accepted and stored verbatim alongside otherwise valid
fields, and only the empty category draws the category error. -/
theorem nonempty_category_accepted
    (ty cat : String) (a : ℚ) (desc : String) (d : Date) (now : Nat)
    (txs : List Transaction)
    (hA : ¬ a ≤ 0) (hC : cat ≠ "") (hD : d.valid = true) :
    (∃ t : Transaction,
      add_transaction ty cat (some a) desc d now txs = (.success t, txs ++ [t]) ∧
      t.category = cat) ∧
    add_transaction ty "" (some a) desc d now txs = (.missingCategory, txs) := by
  constructor
  · exact ⟨_, add_transaction_success_eq ty cat a desc d now txs hA hC hD, rfl⟩
  · exact add_transaction_emptycat_eq ty "" a desc d now txs hA rfl

/-- C1 amended witness: the Gift Card expense from the counterexample is
stored with its category, while an empty category is rejected. -/
theorem nonempty_category_accepted_witness :
    (∃ t : Transaction,
      add_transaction "Expense" "Gift Card" (some 25) "" ⟨2024, 3, 10⟩ 5 [] =
        (.success t, [] ++ [t]) ∧ t.category = "Gift Card") ∧
    add_transaction "Expense" "" (some 25) "" ⟨2024, 3, 10⟩ 5 [] =
      (.missingCategory, []) :=
  nonempty_category_accepted "Expense" "Gift Card" 25 "" ⟨2024, 3, 10⟩ 5 []
    (by norm_num) (by decide) (by decide)

lemma filterBody_custom_ok (s e today : Date) (txs : List Transaction)
    (hs : s.valid = true) (he : e.valid = true) :
    filterBody "Custom Range" (some s) (some e) today txs =
      .ok (txs.filter (fun t =>
        decide (s.toScalar ≤ t.date.toScalar) && decide (t.date.toScalar ≤ e.toScalar))) := by
  by_cases hemp : txs.isEmpty
  · rw [List.isEmpty_iff.mp hemp]
    simp [filterBody]
  · simp [filterBody, hemp, hs, he]

lemma filter_custom_missing_bound (sd ed : Option Date) (today : Date)
    (txs : List Transaction) (h : sd = none ∨ ed = none) :
    filter_transactions_by_period "Custom Range" sd ed today txs = txs := by
  by_cases hemp : txs.isEmpty
  · rw [List.isEmpty_iff.mp hemp]
    simp [filter_transactions_by_period, filterBody]
  · rcases h with rfl | rfl
    · simp [filter_transactions_by_period, filterBody, hemp]
    · cases sd <;> simp [filter_transactions_by_period, filterBody, hemp]

/-- C7: with both custom bounds supplied and parsing, a transaction passes
the Custom Range filter exactly when its date lies in the closed interval
between the bounds; with either bound missing, every transaction passes. -/
theorem custom_range_filter (s e today : Date) (txs : List Transaction)
    (hs : s.valid = true) (he : e.valid = true) :
    (∀ t, t ∈ filter_transactions_by_period "Custom Range" (some s) (some e) today txs ↔
      t ∈ txs ∧ s.toScalar ≤ t.date.toScalar ∧ t.date.toScalar ≤ e.toScalar) ∧
    (∀ sd ed : Option Date, sd = none ∨ ed = none →
      filter_transactions_by_period "Custom Range" sd ed today txs = txs) := by
  constructor
  · intro t
    rw [filter_transactions_by_period, filterBody_custom_ok s e today txs hs he]
    simp [List.mem_filter, and_assoc]
  · intro sd ed h
    exact filter_custom_missing_bound sd ed today txs h

/-- C7 witness: a two-element store filtered by the range 2024-03-01 to
2024-03-31 keeps the March transaction and drops the February one, and a
missing end bound lets everything through. -/
theorem custom_range_filter_witness :
    ((Transaction.mk 1 "Expense" "Travel" 50 "" (Date.mk 2024 3 10) 1) ∈
      filter_transactions_by_period "Custom Range" (some (Date.mk 2024 3 1))
        (some (Date.mk 2024 3 31)) (Date.mk 2024 3 15)
        [Transaction.mk 1 "Expense" "Travel" 50 "" (Date.mk 2024 3 10) 1,
         Transaction.mk 2 "Expense" "Travel" 20 "" (Date.mk 2024 2 10) 2] ∧
     ¬ (Transaction.mk 2 "Expense" "Travel" 20 "" (Date.mk 2024 2 10) 2) ∈
      filter_transactions_by_period "Custom Range" (some (Date.mk 2024 3 1))
        (some (Date.mk 2024 3 31)) (Date.mk 2024 3 15)
        [Transaction.mk 1 "Expense" "Travel" 50 "" (Date.mk 2024 3 10) 1,
         Transaction.mk 2 "Expense" "Travel" 20 "" (Date.mk 2024 2 10) 2]) ∧
    filter_transactions_by_period "Custom Range" (some (Date.mk 2024 3 1)) none
      (Date.mk 2024 3 15)
      [Transaction.mk 1 "Expense" "Travel" 50 "" (Date.mk 2024 3 10) 1,
       Transaction.mk 2 "Expense" "Travel" 20 "" (Date.mk 2024 2 10) 2] =
      [Transaction.mk 1 "Expense" "Travel" 50 "" (Date.mk 2024 3 10) 1,
       Transaction.mk 2 "Expense" "Travel" 20 "" (Date.mk 2024 2 10) 2] := by
  have h := custom_range_filter (Date.mk 2024 3 1) (Date.mk 2024 3 31)
    (Date.mk 2024 3 15)
    [Transaction.mk 1 "Expense" "Travel" 50 "" (Date.mk 2024 3 10) 1,
     Transaction.mk 2 "Expense" "Travel" 20 "" (Date.mk 2024 2 10) 2]
    (by decide) (by decide)
  refine ⟨⟨?_, ?_⟩, h.2 (some (Date.mk 2024 3 1)) none (Or.inr rfl)⟩
  · exact (h.1 _).mpr (by decide)
  · intro hmem
    exact absurd ((h.1 _).mp hmem) (by decide)

/-- C8 counterexample: with a supplied start bound that does not parse
(month 13), filter_transactions_by_period on a non-empty store returns
the empty transaction set, not an error: the InvalidDate failure raised
in the body is caught inside the function. -/
theorem invalid_custom_bound_returns_empty_cex :
    filter_transactions_by_period "Custom Range" (some (Date.mk 2024 13 1))
      (some (Date.mk 2024 3 1)) (Date.mk 2024 3 15)
      [Transaction.mk 1 "Expense" "Travel" 50 "" (Date.mk 2024 2 1) 1] = [] ∧
    [Transaction.mk 1 "Expense" "Travel" 50 "" (Date.mk 2024 2 1) 1] ≠
      ([] : List Transaction) ∧
    filterBody "Custom Range" (some (Date.mk 2024 13 1)) (some (Date.mk 2024 3 1))
      (Date.mk 2024 3 15)
      [Transaction.mk 1 "Expense" "Travel" 50 "" (Date.mk 2024 2 1) 1] =
      .error .invalidDate := by
  refine ⟨by decide, by decide, rfl⟩

/-- C8 amended: an unparseable supplied custom bound makes the body of
filter_transactions_by_period fail with InvalidDate, but the surrounding
try/except swallows the error and the function returns the empty
transaction set, so no InvalidDate failure reaches the caller. -/
theorem invalid_custom_bound_swallowed (s e today : Date) (txs : List Transaction)
    (h : s.valid = false ∨ e.valid = false) :
    filter_transactions_by_period "Custom Range" (some s) (some e) today txs = [] ∧
    (txs ≠ [] → filterBody "Custom Range" (some s) (some e) today txs =
      .error .invalidDate) := by
  have hbody : txs ≠ [] → filterBody "Custom Range" (some s) (some e) today txs =
      .error .invalidDate := by
    intro hne
    have hemp : ¬ txs.isEmpty := by
      simpa [List.isEmpty_iff] using hne
    rcases h with hs | he
    · simp [filterBody, hemp, hs]
    · by_cases hs : s.valid
      · simp [filterBody, hemp, hs, he]
      · simp [filterBody, hemp, Bool.eq_false_iff.mpr hs]
  constructor
  · by_cases hne : txs = []
    · subst hne
      rfl
    · rw [filter_transactions_by_period, hbody hne]
  · exact hbody

/-- C8 amended witness: the concrete point of the counterexample,
obtained through the amended theorem. -/
theorem invalid_custom_bound_swallowed_witness :
    filter_transactions_by_period "Custom Range" (some (Date.mk 2024 13 1))
      (some (Date.mk 2024 3 1)) (Date.mk 2024 3 15)
      [Transaction.mk 2 "Income" "Salary" 90 "" (Date.mk 2024 2 1) 1] = [] ∧
    ([Transaction.mk 2 "Income" "Salary" 90 "" (Date.mk 2024 2 1) 1] ≠
      ([] : List Transaction) →
      filterBody "Custom Range" (some (Date.mk 2024 13 1)) (some (Date.mk 2024 3 1))
        (Date.mk 2024 3 15)
        [Transaction.mk 2 "Income" "Salary" 90 "" (Date.mk 2024 2 1) 1] =
        .error .invalidDate) :=
  invalid_custom_bound_swallowed (Date.mk 2024 13 1) (Date.mk 2024 3 1)
    (Date.mk 2024 3 15)
    [Transaction.mk 2 "Income" "Salary" 90 "" (Date.mk 2024 2 1) 1]
    (Or.inl (by decide))

/-- C9: whenever the filtered transaction set is empty, the summary and
all four chart views return their explicit no-data value, which is a
different value from a zero-valued summary. -/
theorem empty_filter_no_data_signal (period : String) (sd ed : Option Date)
    (today : Date) (txs : List Transaction)
    (h : filter_transactions_by_period period sd ed today txs = []) :
    create_summary_cards period sd ed today txs = .noData ∧
    create_expense_pie_chart period sd ed today txs = .noData ∧
    create_income_pie_chart period sd ed today txs = .noData ∧
    create_trend_chart period sd ed today txs = .noData ∧
    create_bar_chart period sd ed today txs = .noData ∧
    SummaryView.noData ≠ SummaryView.cards 0 0 0 0 := by
  refine ⟨?_, ?_, ?_, ?_, ?_, by decide⟩ <;>
    simp [create_summary_cards, create_expense_pie_chart, create_income_pie_chart,
      create_trend_chart, create_bar_chart, h]

/-- C9 witness: the empty store under the This Month period yields the
no-data signal everywhere. -/
theorem empty_filter_no_data_signal_witness :
    create_summary_cards "This Month" none none (Date.mk 2024 3 15) [] = .noData ∧
    create_expense_pie_chart "This Month" none none (Date.mk 2024 3 15) [] = .noData ∧
    create_income_pie_chart "This Month" none none (Date.mk 2024 3 15) [] = .noData ∧
    create_trend_chart "This Month" none none (Date.mk 2024 3 15) [] = .noData ∧
    create_bar_chart "This Month" none none (Date.mk 2024 3 15) [] = .noData ∧
    SummaryView.noData ≠ SummaryView.cards 0 0 0 0 :=
  empty_filter_no_data_signal "This Month" none none (Date.mk 2024 3 15) [] rfl

lemma filter_this_week_eq (sd ed : Option Date) (today : Date)
    (txs : List Transaction) :
    filter_transactions_by_period "This Week" sd ed today txs =
      txs.filter (fun t => decide (today.toScalar - today.weekday ≤ t.date.toScalar)) := by
  by_cases hemp : txs.isEmpty
  · rw [List.isEmpty_iff.mp hemp]
    rfl
  · simp [filter_transactions_by_period, filterBody, hemp]

lemma filter_this_month_eq (sd ed : Option Date) (today : Date)
    (txs : List Transaction) :
    filter_transactions_by_period "This Month" sd ed today txs =
      txs.filter (fun t =>
        decide ((Date.mk today.year today.month 1).toScalar ≤ t.date.toScalar)) := by
  by_cases hemp : txs.isEmpty
  · rw [List.isEmpty_iff.mp hemp]
    rfl
  · simp [filter_transactions_by_period, filterBody, hemp]

lemma filter_this_year_eq (sd ed : Option Date) (today : Date)
    (txs : List Transaction) :
    filter_transactions_by_period "This Year" sd ed today txs =
      txs.filter (fun t =>
        decide ((Date.mk today.year 1 1).toScalar ≤ t.date.toScalar)) := by
  by_cases hemp : txs.isEmpty
  · rw [List.isEmpty_iff.mp hemp]
    rfl
  · simp [filter_transactions_by_period, filterBody, hemp]

lemma seven_le_toScalar (dt : Date) : 7 ≤ dt.toScalar := by
  unfold Date.toScalar
  dsimp only
  omega

lemma monday_shift (t : Nat) (h : 7 ≤ t) :
    (t - (t + 1) % 7 + 1) % 7 = 0 ∧ t - (t + 1) % 7 ≤ t ∧
      t < t - (t + 1) % 7 + 7 := by
  omega

lemma first_of_month_le (y m d : Nat) (hd : 1 ≤ d) :
    (Date.mk y m 1).toScalar ≤ (Date.mk y m d).toScalar := by
  unfold Date.toScalar
  dsimp only
  omega

lemma first_of_year_le (y m d : Nat) (hm1 : 1 ≤ m) (hm2 : m ≤ 12) (hd : 1 ≤ d) :
    (Date.mk y 1 1).toScalar ≤ (Date.mk y m d).toScalar := by
  unfold Date.toScalar
  dsimp only
  by_cases hm : m ≤ 2
  · have h14 : (14 - m) / 12 = 1 := by omega
    rw [h14]
    omega
  · have h14 : (14 - m) / 12 = 0 := by omega
    rw [h14]
    norm_num
    have hb : (y + 4799) / 4 ≤ (y + 4800) / 4 := Nat.div_le_div_right (by omega)
    have hc : (y + 4799) / 400 ≤ (y + 4800) / 400 := Nat.div_le_div_right (by omega)
    have he : (y + 4800) / 100 ≤ (y + 4799) / 100 + 1 := by
      have h1 : (y + 4800) / 100 ≤ (y + 4700 + 100) / 100 :=
        Nat.div_le_div_right (by omega)
      have h2 : (y + 4700 + 100) / 100 = (y + 4700) / 100 + 1 :=
        Nat.add_div_right _ (by norm_num)
      have h3 : (y + 4700) / 100 ≤ (y + 4799) / 100 := Nat.div_le_div_right (by omega)
      omega
    omega

/-- C2: for This Week, This Month and This Year a transaction passes the
filter exactly when its date scalar is at least the period start: the
scalar of the most recent Monday for This Week (the start scalar is a
Monday, at most the reference date, and less than seven days before it),
the first day of the reference month for This Month, and January 1 of the
reference year for This Year.  No upper bound is applied: any transaction
dated strictly after the reference date still passes all three filters. -/
theorem named_period_filters_lower_bound_only (today : Date) (txs : List Transaction)
    (sd ed : Option Date) (hT : today.valid = true) :
    (∀ t, t ∈ filter_transactions_by_period "This Week" sd ed today txs ↔
      t ∈ txs ∧ today.toScalar - today.weekday ≤ t.date.toScalar) ∧
    ((today.toScalar - today.weekday + 1) % 7 = 0 ∧
      today.toScalar - today.weekday ≤ today.toScalar ∧
      today.toScalar < today.toScalar - today.weekday + 7) ∧
    (∀ t, t ∈ filter_transactions_by_period "This Month" sd ed today txs ↔
      t ∈ txs ∧ (Date.mk today.year today.month 1).toScalar ≤ t.date.toScalar) ∧
    (∀ t, t ∈ filter_transactions_by_period "This Year" sd ed today txs ↔
      t ∈ txs ∧ (Date.mk today.year 1 1).toScalar ≤ t.date.toScalar) ∧
    (∀ t ∈ txs, today.toScalar < t.date.toScalar →
      t ∈ filter_transactions_by_period "This Week" sd ed today txs ∧
      t ∈ filter_transactions_by_period "This Month" sd ed today txs ∧
      t ∈ filter_transactions_by_period "This Year" sd ed today txs) := by
  have hvalid := of_decide_eq_true hT
  obtain ⟨hy1, hy2, hm1, hm2, hd1, hd2⟩ := hvalid
  have hweek : ∀ t, t ∈ filter_transactions_by_period "This Week" sd ed today txs ↔
      t ∈ txs ∧ today.toScalar - today.weekday ≤ t.date.toScalar := by
    intro t
    rw [filter_this_week_eq]
    simp [List.mem_filter]
  have hmonth : ∀ t, t ∈ filter_transactions_by_period "This Month" sd ed today txs ↔
      t ∈ txs ∧ (Date.mk today.year today.month 1).toScalar ≤ t.date.toScalar := by
    intro t
    rw [filter_this_month_eq]
    simp [List.mem_filter]
  have hyear : ∀ t, t ∈ filter_transactions_by_period "This Year" sd ed today txs ↔
      t ∈ txs ∧ (Date.mk today.year 1 1).toScalar ≤ t.date.toScalar := by
    intro t
    rw [filter_this_year_eq]
    simp [List.mem_filter]
  have hmon := monday_shift today.toScalar (seven_le_toScalar today)
  have hmstart : (Date.mk today.year today.month 1).toScalar ≤ today.toScalar :=
    first_of_month_le today.year today.month today.day hd1
  have hystart : (Date.mk today.year 1 1).toScalar ≤ today.toScalar :=
    first_of_year_le today.year today.month today.day hm1 hm2 hd1
  refine ⟨hweek, ⟨hmon.1, hmon.2.1, hmon.2.2⟩, hmonth, hyear, ?_⟩
  intro t ht hafter
  refine ⟨(hweek t).mpr ⟨ht, ?_⟩, (hmonth t).mpr ⟨ht, ?_⟩, (hyear t).mpr ⟨ht, ?_⟩⟩
  · omega
  · omega
  · omega

/-- C2 witness: reference date 2024-03-15 (a Friday) with a single
transaction dated 2024-04-01, after the reference date: the filters are
the stated lower-bound filters and the future-dated transaction is kept
by all three periods. -/
theorem named_period_filters_lower_bound_only_witness :
    (∀ t, t ∈ filter_transactions_by_period "This Week" none none (Date.mk 2024 3 15)
        [Transaction.mk 1 "Expense" "Travel" 50 "" (Date.mk 2024 4 1) 1] ↔
      t ∈ [Transaction.mk 1 "Expense" "Travel" 50 "" (Date.mk 2024 4 1) 1] ∧
        (Date.mk 2024 3 15).toScalar - (Date.mk 2024 3 15).weekday ≤ t.date.toScalar) ∧
    (((Date.mk 2024 3 15).toScalar - (Date.mk 2024 3 15).weekday + 1) % 7 = 0 ∧
      (Date.mk 2024 3 15).toScalar - (Date.mk 2024 3 15).weekday ≤ (Date.mk 2024 3 15).toScalar ∧
      (Date.mk 2024 3 15).toScalar < (Date.mk 2024 3 15).toScalar - (Date.mk 2024 3 15).weekday + 7) ∧
    (∀ t, t ∈ filter_transactions_by_period "This Month" none none (Date.mk 2024 3 15)
        [Transaction.mk 1 "Expense" "Travel" 50 "" (Date.mk 2024 4 1) 1] ↔
      t ∈ [Transaction.mk 1 "Expense" "Travel" 50 "" (Date.mk 2024 4 1) 1] ∧
        (Date.mk 2024 3 1).toScalar ≤ t.date.toScalar) ∧
    (∀ t, t ∈ filter_transactions_by_period "This Year" none none (Date.mk 2024 3 15)
        [Transaction.mk 1 "Expense" "Travel" 50 "" (Date.mk 2024 4 1) 1] ↔
      t ∈ [Transaction.mk 1 "Expense" "Travel" 50 "" (Date.mk 2024 4 1) 1] ∧
        (Date.mk 2024 1 1).toScalar ≤ t.date.toScalar) ∧
    (∀ t ∈ [Transaction.mk 1 "Expense" "Travel" 50 "" (Date.mk 2024 4 1) 1],
      (Date.mk 2024 3 15).toScalar < t.date.toScalar →
      t ∈ filter_transactions_by_period "This Week" none none (Date.mk 2024 3 15)
        [Transaction.mk 1 "Expense" "Travel" 50 "" (Date.mk 2024 4 1) 1] ∧
      t ∈ filter_transactions_by_period "This Month" none none (Date.mk 2024 3 15)
        [Transaction.mk 1 "Expense" "Travel" 50 "" (Date.mk 2024 4 1) 1] ∧
      t ∈ filter_transactions_by_period "This Year" none none (Date.mk 2024 3 15)
        [Transaction.mk 1 "Expense" "Travel" 50 "" (Date.mk 2024 4 1) 1]) :=
  named_period_filters_lower_bound_only (Date.mk 2024 3 15)
    [Transaction.mk 1 "Expense" "Travel" 50 "" (Date.mk 2024 4 1) 1]
    none none (by decide)

lemma mem_insertByTimestampDesc {a x : Transaction} {l : List Transaction} :
    a ∈ insertByTimestampDesc x l ↔ a = x ∨ a ∈ l := by
  induction l with
  | nil => simp [insertByTimestampDesc]
  | cons y ys ih =>
    by_cases h : y.timestamp ≤ x.timestamp
    · simp [insertByTimestampDesc, h]
    · simp only [insertByTimestampDesc, if_neg h, List.mem_cons, ih]
      tauto

lemma mem_sortByTimestampDesc {a : Transaction} {l : List Transaction} :
    a ∈ sortByTimestampDesc l ↔ a ∈ l := by
  induction l with
  | nil => simp [sortByTimestampDesc]
  | cons x xs ih =>
    simp only [sortByTimestampDesc, mem_insertByTimestampDesc, ih, List.mem_cons]

lemma descLex_ts_le {a b : Transaction}
    (h : b.timestamp < a.timestamp ∨ (a.timestamp = b.timestamp ∧ a.id < b.id)) :
    b.timestamp ≤ a.timestamp := by
  rcases h with h | ⟨h, _⟩
  · exact le_of_lt h
  · exact le_of_eq h.symm

lemma insertByTimestampDesc_pairwise {x : Transaction} {l : List Transaction}
    (hx : ∀ y ∈ l, x.id < y.id)
    (hl : l.Pairwise (fun a b =>
      b.timestamp < a.timestamp ∨ (a.timestamp = b.timestamp ∧ a.id < b.id))) :
    (insertByTimestampDesc x l).Pairwise (fun a b =>
      b.timestamp < a.timestamp ∨ (a.timestamp = b.timestamp ∧ a.id < b.id)) := by
  induction l with
  | nil => simp [insertByTimestampDesc]
  | cons y ys ih =>
    rcases List.pairwise_cons.mp hl with ⟨hy, hys⟩
    by_cases h : y.timestamp ≤ x.timestamp
    · rw [insertByTimestampDesc, if_pos h]
      refine List.pairwise_cons.mpr ⟨?_, hl⟩
      intro z hz
      rcases List.mem_cons.mp hz with rfl | hz
      · rcases lt_or_eq_of_le h with hlt | heq
        · exact Or.inl hlt
        · exact Or.inr ⟨heq.symm, hx z (List.mem_cons_self z ys)⟩
      · have hzy : z.timestamp ≤ y.timestamp := descLex_ts_le (hy z hz)
        rcases lt_or_eq_of_le (le_trans hzy h) with hlt | heq
        · exact Or.inl hlt
        · exact Or.inr ⟨heq.symm, hx z (List.mem_cons_of_mem y hz)⟩
    · rw [insertByTimestampDesc, if_neg h]
      refine List.pairwise_cons.mpr ⟨?_, ?_⟩
      · intro z hz
        rcases mem_insertByTimestampDesc.mp hz with rfl | hz
        · exact Or.inl (lt_of_not_le h)
        · exact hy z hz
      · exact ih (fun y hy => hx y (List.mem_cons_of_mem _ hy)) hys

lemma sortByTimestampDesc_pairwise {l : List Transaction}
    (hids : l.Pairwise (fun a b => a.id < b.id)) :
    (sortByTimestampDesc l).Pairwise (fun a b =>
      b.timestamp < a.timestamp ∨ (a.timestamp = b.timestamp ∧ a.id < b.id)) := by
  induction l with
  | nil => simp [sortByTimestampDesc]
  | cons x xs ih =>
    rcases List.pairwise_cons.mp hids with ⟨hx, hxs⟩
    exact insertByTimestampDesc_pairwise
      (fun y hy => hx y (mem_sortByTimestampDesc.mp hy)) (ih hxs)

/-- C6 counterexample: on a store of two records with equal insertion
timestamps and ids 1 then 2, get_recent_transactions keeps them in their
original order, id ascending, so the claimed ordering (ties in createdAt
broken by id descending, most recently inserted first) fails at this
concrete input. -/
theorem recent_tie_break_not_id_descending_cex :
    get_recent_transactions
      [Transaction.mk 1 "Expense" "Travel" 50 "" (Date.mk 2024 3 10) 5,
       Transaction.mk 2 "Income" "Salary" 90 "" (Date.mk 2024 3 1) 5] =
      [Transaction.mk 1 "Expense" "Travel" 50 "" (Date.mk 2024 3 10) 5,
       Transaction.mk 2 "Income" "Salary" 90 "" (Date.mk 2024 3 1) 5] ∧
    (Transaction.mk 1 "Expense" "Travel" 50 "" (Date.mk 2024 3 10) 5).timestamp =
      (Transaction.mk 2 "Income" "Salary" 90 "" (Date.mk 2024 3 1) 5).timestamp ∧
    ¬ (get_recent_transactions
      [Transaction.mk 1 "Expense" "Travel" 50 "" (Date.mk 2024 3 10) 5,
       Transaction.mk 2 "Income" "Salary" 90 "" (Date.mk 2024 3 1) 5]).Pairwise
      (fun a b => b.timestamp < a.timestamp ∨
        (b.timestamp = a.timestamp ∧ b.id < a.id)) := by
  refine ⟨by decide, by decide, by decide⟩

/-- C6 amended: get_recent_transactions returns at most ten records,
ordered by insertion timestamp descending and not by transaction date;
among records with equal timestamps the code gives no id-descending
guarantee: under the stable descending sort semantics the ties keep
their original insertion order, id ascending on stores whose ids
increase with insertion order. -/
theorem recent_transactions_sorted_truncated (txs : List Transaction)
    (hids : txs.Pairwise (fun a b => a.id < b.id)) :
    (get_recent_transactions txs).length ≤ 10 ∧
    (get_recent_transactions txs).Pairwise (fun a b =>
      b.timestamp < a.timestamp ∨ (a.timestamp = b.timestamp ∧ a.id < b.id)) := by
  rw [get_recent_transactions]
  by_cases hemp : txs.isEmpty
  · simp [hemp]
  · rw [if_neg hemp]
    exact ⟨List.length_take_le 10 _,
      (sortByTimestampDesc_pairwise hids).sublist (List.take_sublist 10 _)⟩

/-- C6 amended witness: three records, the first two sharing a timestamp:
the view has at most ten entries, is ordered by timestamp descending, and
the tied pair stays in insertion order. -/
theorem recent_transactions_sorted_truncated_witness :
    (get_recent_transactions
      [Transaction.mk 1 "Expense" "Travel" 50 "" (Date.mk 2024 3 10) 5,
       Transaction.mk 2 "Income" "Salary" 90 "" (Date.mk 2024 3 1) 5,
       Transaction.mk 3 "Expense" "Shopping" 20 "" (Date.mk 2024 2 1) 9]).length ≤ 10 ∧
    (get_recent_transactions
      [Transaction.mk 1 "Expense" "Travel" 50 "" (Date.mk 2024 3 10) 5,
       Transaction.mk 2 "Income" "Salary" 90 "" (Date.mk 2024 3 1) 5,
       Transaction.mk 3 "Expense" "Shopping" 20 "" (Date.mk 2024 2 1) 9]).Pairwise
      (fun a b => b.timestamp < a.timestamp ∨
        (a.timestamp = b.timestamp ∧ a.id < b.id)) :=
  recent_transactions_sorted_truncated
    [Transaction.mk 1 "Expense" "Travel" 50 "" (Date.mk 2024 3 10) 5,
     Transaction.mk 2 "Income" "Salary" 90 "" (Date.mk 2024 3 1) 5,
     Transaction.mk 3 "Expense" "Shopping" 20 "" (Date.mk 2024 2 1) 9]
    (by decide)

lemma sum_filter_split (l : List Transaction) (p : Transaction → Bool)
    (f : Transaction → ℚ) :
    ((l.filter p).map f).sum + ((l.filter (fun t => !(p t))).map f).sum =
      (l.map f).sum := by
  induction l with
  | nil => simp
  | cons a l ih =>
    by_cases h : p a = true
    · simp only [List.filter_cons, h, Bool.not_true, Bool.false_eq_true,
        if_true, if_false, List.map_cons, List.sum_cons]
      linarith [ih]
    · have h' : p a = false := Bool.eq_false_iff.mpr h
      simp only [List.filter_cons, h', Bool.not_false, Bool.false_eq_true,
        if_true, if_false, List.map_cons, List.sum_cons]
      linarith [ih]

lemma sum_over_fibers {κ : Type} [DecidableEq κ] (key : Transaction → κ)
    (f : Transaction → ℚ) :
    ∀ (cats : List κ), cats.Nodup → ∀ (l : List Transaction),
      (∀ t ∈ l, key t ∈ cats) →
      (cats.map (fun k =>
        ((l.filter (fun t => decide (key t = k))).map f).sum)).sum = (l.map f).sum := by
  intro cats
  induction cats with
  | nil =>
    intro _ l hcov
    cases l with
    | nil => simp
    | cons a l => exact absurd (hcov a (List.mem_cons_self a l)) (List.not_mem_nil _)
  | cons c cs ih =>
    intro hnd l hcov
    rcases List.nodup_cons.mp hnd with ⟨hc, hcs⟩
    have htail : cs.map (fun k =>
        ((l.filter (fun t => decide (key t = k))).map f).sum) = cs.map (fun k =>
        (((l.filter (fun t => !decide (key t = c))).filter
          (fun t => decide (key t = k))).map f).sum) := by
      apply List.map_eq_map_iff.mpr
      intro k hk
      have hfil : l.filter (fun t => decide (key t = k)) =
          (l.filter (fun t => !decide (key t = c))).filter
            (fun t => decide (key t = k)) := by
        rw [List.filter_filter]
        apply List.filter_congr
        intro t _
        have hkc : ¬ k = c := fun hkc => hc (hkc ▸ hk)
        by_cases hkt : key t = k
        · simp [hkt, hkc]
        · simp [hkt]
      rw [hfil]
    have hcov' : ∀ t ∈ l.filter (fun t => !decide (key t = c)), key t ∈ cs := by
      intro t ht
      rcases List.mem_filter.mp ht with ⟨htl, hneg⟩
      rcases List.mem_cons.mp (hcov t htl) with h | h
      · rw [h] at hneg
        simp at hneg
      · exact h
    have ihl := ih hcs (l.filter (fun t => !decide (key t = c))) hcov'
    have hsplit := sum_filter_split l (fun t => decide (key t = c)) f
    rw [List.map_cons, List.sum_cons, htail, ihl]
    linarith [hsplit]

lemma groupSums_total {κ : Type} [DecidableEq κ] (key : Transaction → κ)
    (l : List Transaction) :
    ((groupSums key l).map (fun g => g.2)).sum = (l.map (fun t => t.amount)).sum := by
  rw [groupSums, List.map_map]
  exact sum_over_fibers key (fun t => t.amount) (l.map key).dedup
    (List.nodup_dedup _) l (fun t ht => List.mem_dedup.mpr (List.mem_map_of_mem key ht))

/-- C3: on a non-empty filtered set the summary card carries
netBalance = totalIncome - totalExpenses together with the filtered
count, and the per-category totals of the expense and income pie charts
sum exactly to totalExpenses and totalIncome respectively. -/
theorem summary_and_category_totals_consistent (period : String)
    (sd ed : Option Date) (today : Date) (txs : List Transaction)
    (h : filter_transactions_by_period period sd ed today txs ≠ []) :
    create_summary_cards period sd ed today txs =
      .cards (totalOfType "Income" (filter_transactions_by_period period sd ed today txs))
        (totalOfType "Expense" (filter_transactions_by_period period sd ed today txs))
        (totalOfType "Income" (filter_transactions_by_period period sd ed today txs) -
          totalOfType "Expense" (filter_transactions_by_period period sd ed today txs))
        (filter_transactions_by_period period sd ed today txs).length ∧
    chartTotal (create_expense_pie_chart period sd ed today txs) =
      totalOfType "Expense" (filter_transactions_by_period period sd ed today txs) ∧
    chartTotal (create_income_pie_chart period sd ed today txs) =
      totalOfType "Income" (filter_transactions_by_period period sd ed today txs) := by
  have hne : (filter_transactions_by_period period sd ed today txs).isEmpty = false := by
    rcases he : (filter_transactions_by_period period sd ed today txs).isEmpty with _ | _
    · rfl
    · exact absurd (List.isEmpty_iff.mp he) h
  refine ⟨?_, ?_, ?_⟩
  · simp only [create_summary_cards, hne, Bool.false_eq_true, if_false]
  · simp only [create_expense_pie_chart]
    by_cases hemp : ((filter_transactions_by_period period sd ed today txs).filter
        (fun t => decide (t.type = "Expense"))).isEmpty
    · rw [if_pos hemp]
      rw [totalOfType, List.isEmpty_iff.mp hemp]
      rfl
    · rw [if_neg hemp]
      exact groupSums_total (fun t => t.category) _
  · simp only [create_income_pie_chart]
    by_cases hemp : ((filter_transactions_by_period period sd ed today txs).filter
        (fun t => decide (t.type = "Income"))).isEmpty
    · rw [if_pos hemp]
      rw [totalOfType, List.isEmpty_iff.mp hemp]
      rfl
    · rw [if_neg hemp]
      exact groupSums_total (fun t => t.category) _

/-- C3 witness: the This Month aggregation over a salary of 1000 and an
expense of 50, both in March 2024, with reference date 2024-03-15. -/
theorem summary_and_category_totals_consistent_witness :
    create_summary_cards "This Month" none none (Date.mk 2024 3 15)
      [Transaction.mk 1 "Income" "Salary" 1000 "" (Date.mk 2024 3 1) 1,
       Transaction.mk 2 "Expense" "Food & Dining" 50 "" (Date.mk 2024 3 10) 2] =
      .cards (totalOfType "Income" (filter_transactions_by_period "This Month" none none
          (Date.mk 2024 3 15)
          [Transaction.mk 1 "Income" "Salary" 1000 "" (Date.mk 2024 3 1) 1,
           Transaction.mk 2 "Expense" "Food & Dining" 50 "" (Date.mk 2024 3 10) 2]))
        (totalOfType "Expense" (filter_transactions_by_period "This Month" none none
          (Date.mk 2024 3 15)
          [Transaction.mk 1 "Income" "Salary" 1000 "" (Date.mk 2024 3 1) 1,
           Transaction.mk 2 "Expense" "Food & Dining" 50 "" (Date.mk 2024 3 10) 2]))
        (totalOfType "Income" (filter_transactions_by_period "This Month" none none
          (Date.mk 2024 3 15)
          [Transaction.mk 1 "Income" "Salary" 1000 "" (Date.mk 2024 3 1) 1,
           Transaction.mk 2 "Expense" "Food & Dining" 50 "" (Date.mk 2024 3 10) 2]) -
         totalOfType "Expense" (filter_transactions_by_period "This Month" none none
          (Date.mk 2024 3 15)
          [Transaction.mk 1 "Income" "Salary" 1000 "" (Date.mk 2024 3 1) 1,
           Transaction.mk 2 "Expense" "Food & Dining" 50 "" (Date.mk 2024 3 10) 2]))
        (filter_transactions_by_period "This Month" none none (Date.mk 2024 3 15)
          [Transaction.mk 1 "Income" "Salary" 1000 "" (Date.mk 2024 3 1) 1,
           Transaction.mk 2 "Expense" "Food & Dining" 50 "" (Date.mk 2024 3 10) 2]).length ∧
    chartTotal (create_expense_pie_chart "This Month" none none (Date.mk 2024 3 15)
      [Transaction.mk 1 "Income" "Salary" 1000 "" (Date.mk 2024 3 1) 1,
       Transaction.mk 2 "Expense" "Food & Dining" 50 "" (Date.mk 2024 3 10) 2]) =
      totalOfType "Expense" (filter_transactions_by_period "This Month" none none
        (Date.mk 2024 3 15)
        [Transaction.mk 1 "Income" "Salary" 1000 "" (Date.mk 2024 3 1) 1,
         Transaction.mk 2 "Expense" "Food & Dining" 50 "" (Date.mk 2024 3 10) 2]) ∧
    chartTotal (create_income_pie_chart "This Month" none none (Date.mk 2024 3 15)
      [Transaction.mk 1 "Income" "Salary" 1000 "" (Date.mk 2024 3 1) 1,
       Transaction.mk 2 "Expense" "Food & Dining" 50 "" (Date.mk 2024 3 10) 2]) =
      totalOfType "Income" (filter_transactions_by_period "This Month" none none
        (Date.mk 2024 3 15)
        [Transaction.mk 1 "Income" "Salary" 1000 "" (Date.mk 2024 3 1) 1,
         Transaction.mk 2 "Expense" "Food & Dining" 50 "" (Date.mk 2024 3 10) 2]) :=
  summary_and_category_totals_consistent "This Month" none none (Date.mk 2024 3 15)
    [Transaction.mk 1 "Income" "Salary" 1000 "" (Date.mk 2024 3 1) 1,
     Transaction.mk 2 "Expense" "Food & Dining" 50 "" (Date.mk 2024 3 10) 2]
    (by decide)

end ExpenseTracker
